import Mathlib

/-!
Shallow embedding of the azure_metrics_exporter core (files `main.go` — collector
and Azure API client — and `config/config.go`).

Modelling conventions:
* Go `time.Time` instants are modelled as `Int` UNIX seconds (the identity endpoint
  hands back `expires_on` in UNIX seconds and the client stores
  `time.Unix(expiresOn, 0)`); `10 * time.Minute` is `600` seconds.
* Go `float64` metric payloads are modelled as `Int`: no claim performs any
  arithmetic on the values, they are only selected and copied into samples.
* A Go nil slice is `Option.none`; a decoded empty JSON array is `some []`.
* A Go index/type-assertion panic is `Option.none` at the function's result type.
* Go strings are Lean `String`; Go byte slicing is `List.drop` on `String.data`
  (the identifiers involved are ASCII, where bytes and characters coincide).
* `strings.Replace(s, old, new, -1)` with a one-character `old` is a per-character
  map (or flat-map when `new` has several characters).
* `strings.ToLower` is a per-character lowercase map (Go's Unicode table agrees
  with the ASCII table on the ASCII metric names and units involved).
-/

namespace AzureExporter

/-! ### Data model: decoded Azure API responses (`main.go`, client part) -/

/-- One element of `Timeseries[..].Data` in `AzureMetricValueResponse`:
a timestamp plus the four aggregated values (`total`, `average`, `minimum`,
`maximum`). -/
structure MetricDataPoint where
  timeStamp : String
  total : Int
  average : Int
  minimum : Int
  maximum : Int
deriving DecidableEq

/-- One element of the `timeseries` array of a metric value entry. -/
structure MetricTimeseries where
  data : List MetricDataPoint
deriving DecidableEq

/-- One element of the top-level `value` array of a metric-values response:
`Timeseries`, `ID`, `Name.Value` and `Unit`. -/
structure MetricValueEntry where
  timeseries : List MetricTimeseries
  id : String
  nameValue : String
  unit : String
deriving DecidableEq

/-- Decoded `AzureMetricValueResponse`. The Go field `Value` is a slice that is
nil when the JSON has no `value` key (`none`) and an empty non-nil slice when
the JSON carries `"value": []` (`some []`). -/
structure AzureMetricValueResponse where
  value : Option (List MetricValueEntry)
deriving DecidableEq

/-- A sample handed to `prometheus.MustNewConstMetric`: the descriptor name
(metric name plus aggregation suffix), the labels (derived from the entry's
resource `ID` by `CreateResourceLabels`, kept here as the raw `ID`), and the
gauge value. -/
structure MetricSample where
  name : String
  labels : String
  value : Int
deriving DecidableEq

/-! ### Metric naming (`collectResource`, main.go lines 58–62) -/

/-- Go `strings.Replace(s, old, new, -1)` for one-character `old` and `new`. -/
def replaceChar (old new : Char) (s : String) : String :=
  ⟨s.data.map fun c => if c = old then new else c⟩

/-- Go `strings.ToLower`, per character. -/
def strToLower (s : String) : String :=
  ⟨s.data.map Char.toLower⟩

/-- Go `strings.Replace(s, "/", "_per_", -1)`: each `/` becomes the five
characters `_per_`. -/
def replaceSlashPer (s : String) : String :=
  ⟨(s.data.map fun c => if c = '/' then ['_', 'p', 'e', 'r', '_'] else [c]).flatten⟩

/-- Membership in the character class of `invalidMetricChars = [^a-zA-Z0-9_:]`
(true when the character is NOT invalid). -/
def isValidMetricChar (c : Char) : Bool :=
  ('a' ≤ c && c ≤ 'z') || ('A' ≤ c && c ≤ 'Z') || ('0' ≤ c && c ≤ '9') ||
    c = '_' || c = ':'

/-- The regex replacement `invalidMetricChars.ReplaceAllString(s, "_")`: every character outside
`[a-zA-Z0-9_:]` becomes `_`. -/
def scrubInvalid (s : String) : String :=
  ⟨s.data.map fun c => if isValidMetricChar c then c else '_'⟩

/-- The metric-name pipeline of `collectResource` (main.go lines 58–62):
replace spaces by underscores in the raw name, lowercase the concatenation
with `_` and the unit, replace `/` by `_per_`, scrub invalid characters. -/
def mapMetricName (rawName unit : String) : String :=
  scrubInvalid (replaceSlashPer (strToLower (replaceChar ' ' '_' rawName ++ "_" ++ unit)))

/-- The same pipeline as the spec words it (§4.4): "lowercase the raw metric
name with spaces replaced by underscores, append `_` + unit (lowercased),
replace `/` with `_per_`, then replace every character outside `[a-zA-Z0-9_:]`
with `_`" — the unit is lowercased separately before appending. -/
def mapNameSpec (rawName unit : String) : String :=
  scrubInvalid (replaceSlashPer (strToLower (replaceChar ' ' '_' rawName) ++ "_" ++ strToLower unit))

/-! ### Sample emission (`collectResource`, main.go lines 41–98) -/

/-- Modelled from the spec: `hasAggregation` is called by `collectResource`
(main.go lines 66, 74, 82, 90) but its definition is in a repository file not
under src/. Per the spec, the collector "requests aggregation = the configured
set, or all four kinds if none requested" and emits samples "skipping kinds not
requested": with an empty configured list every kind counts as requested,
otherwise exactly the listed kinds do. -/
def hasAggregation (aggregations : List String) (aggregation : String) : Bool :=
  aggregations.isEmpty || aggregations.contains aggregation

/-- The aggregation list actually placed in the outbound metrics query
(`getMetricValue`, main.go client part lines 399–403): the configured list when
non-empty, otherwise all four kinds. -/
def requestedAggregations (aggregations : List String) : List String :=
  if aggregations.isEmpty then ["Total", "Average", "Minimum", "Maximum"] else aggregations

/-- The four aggregation kinds, with their API names, emitted name suffixes and
field selectors. -/
inductive AggKind where
  | total
  | average
  | minimum
  | maximum
deriving DecidableEq

/-- The name of an aggregation kind as it appears in configuration and in the
outbound query. -/
def AggKind.apiName : AggKind → String
  | .total => "Total"
  | .average => "Average"
  | .minimum => "Minimum"
  | .maximum => "Maximum"

/-- The suffix `collectResource` appends to the metric name for each kind. -/
def AggKind.suffix : AggKind → String
  | .total => "_total"
  | .average => "_average"
  | .minimum => "_min"
  | .maximum => "_max"

/-- The data-point field each kind's sample carries. -/
def AggKind.select : AggKind → MetricDataPoint → Int
  | .total, dp => dp.total
  | .average, dp => dp.average
  | .minimum, dp => dp.minimum
  | .maximum, dp => dp.maximum

/-- All four kinds, in the order of the four `if hasAggregation` blocks. -/
def allAggKinds : List AggKind := [.total, .average, .minimum, .maximum]

/-- The four `if hasAggregation ... { ch <- ... }` blocks of `collectResource`
(main.go lines 66–96), for one entry's chosen data point. -/
def samplesFromPoint (aggregations : List String) (metricName : String)
    (labels : String) (dp : MetricDataPoint) : List MetricSample :=
  (if hasAggregation aggregations "Total" then
    [⟨metricName ++ "_total", labels, dp.total⟩] else []) ++
  (if hasAggregation aggregations "Average" then
    [⟨metricName ++ "_average", labels, dp.average⟩] else []) ++
  (if hasAggregation aggregations "Minimum" then
    [⟨metricName ++ "_min", labels, dp.minimum⟩] else []) ++
  (if hasAggregation aggregations "Maximum" then
    [⟨metricName ++ "_max", labels, dp.maximum⟩] else [])

/-- One iteration of the `for _, value := range metricValueData.Value` loop
(main.go lines 57–97): derive the name, pick
`value.Timeseries[0].Data[len(value.Timeseries[0].Data)-1]` (a panic — `none` —
when this entry has no time series or the first series has no data), and emit
one sample per requested aggregation kind. -/
def samplesForEntry (aggregations : List String) (v : MetricValueEntry) :
    Option (List MetricSample) :=
  match v.timeseries.head? with
  | none => none
  | some ts0 =>
    match ts0.data.getLast? with
    | none => none
    | some dp =>
      some (samplesFromPoint aggregations (mapMetricName v.nameValue v.unit) v.id dp)

/-- The body of `collectResource` (main.go lines 41–98) applied to an already decoded
metric-values response. A nil `Value` (`none`) or an empty first series both
log and return with no samples; the guard
`len(metricValueData.Value[0].Timeseries[0].Data) == 0` itself panics (`none`)
when the `Value` slice is empty but non-nil, or when the first entry has no
time series. The result is the concatenation of the per-entry samples; a panic
in any loop iteration is `none`. -/
def collectResource (aggregations : List String) (resp : AzureMetricValueResponse) :
    Option (List MetricSample) :=
  match resp.value with
  | none => some []
  | some vals =>
    match vals with
    | [] => none
    | v0 :: _ =>
      match v0.timeseries with
      | [] => none
      | ts0 :: _ =>
        if ts0.data.length = 0 then some []
        else (vals.mapM (samplesForEntry aggregations)).map List.flatten

/-! ### Token refresh (`getMetricValue` lines 375–382 and
`listFromResourceGroup` lines 435–442 of the client part) -/

/-- The Azure client's token state: `accessToken` and `accessTokenExpiresOn`
(UNIX seconds; the zero value `time.Time{}` of a client with no token yet is
far in the past of any real clock, modelled as second 0 against a nonnegative
`now`). -/
structure AzureClientState where
  accessToken : String
  accessTokenExpiresOn : Int
deriving DecidableEq

/-- The refresh decision of `getMetricValue`:
`refreshAt := ac.accessTokenExpiresOn.Add(-10 * time.Minute);
if now.After(refreshAt)` — a refresh happens exactly when `now` is strictly
after the expiry minus 600 seconds. -/
def getMetricValueRefreshes (now : Int) (st : AzureClientState) : Bool :=
  now > st.accessTokenExpiresOn - 10 * 60

/-- The refresh decision of `listFromResourceGroup`, textually identical to the
one in `getMetricValue`. -/
def listFromResourceGroupRefreshes (now : Int) (st : AzureClientState) : Bool :=
  now > st.accessTokenExpiresOn - 10 * 60

/-! ### Token acquisition (`getAccessToken`, client part lines 301–335) -/

/-- The fields `getAccessToken` pulls from a successfully unmarshalled JSON
body: `data["access_token"]` and `data["expires_on"]`, each `some` exactly when
the key is present and holds a string (the Go code reads them with a bare type
assertion `.(string)`, which panics otherwise). -/
structure ParsedTokenBody where
  accessToken : Option String
  expiresOn : Option String
deriving DecidableEq

/-- The identity endpoint's answer as `getAccessToken` sees it: the HTTP status
code and, for a readable body, `some parsed` when `json.Unmarshal` succeeds and
`none` when it fails. -/
structure IdentityResponse where
  statusCode : Nat
  body : Option ParsedTokenBody
deriving DecidableEq

/-- The body of `getAccessToken` (client part lines 301–335) on a delivered response.
Result: `none` models a panic (a failed type assertion on a missing or
non-string field); otherwise the client state after the call together with
`some errorMessage` on the error returns. Note the Go code assigns
`ac.accessToken` before parsing `expires_on`, so the `ParseInt` failure path
returns an error with the token field already overwritten. -/
def getAccessToken (st : AzureClientState) (resp : IdentityResponse) :
    Option (AzureClientState × Option String) :=
  if resp.statusCode ≠ 200 then
    some (st, some ("Did not get status code 200, got: " ++ toString resp.statusCode))
  else
    match resp.body with
    | none => some (st, some "Error unmarshalling response body")
    | some b =>
      match b.accessToken with
      | none => none
      | some tok =>
        match b.expiresOn with
        | none => none
        | some e =>
          match e.toInt? with
          | none => some ({ st with accessToken := tok }, some "Error ParseInt of expires_on failed")
          | some n => some (⟨tok, n⟩, none)

/-! ### Resource listing and filtering (`listFromResourceGroup` lines 482–491
of the client part, `Collect` main.go lines 117–147) -/

/-- The identifier-stripping loop of `listFromResourceGroup` (client part lines
482–491): for each listed resource, drop the first
`len("subscriptions/" + subscriptionID) + 1` bytes of its `Id`
(the subscription prefix plus the leading slash). -/
def stripResources (subscriptionID : String) (ids : List String) : List String :=
  ids.map fun id => ⟨id.data.drop (("subscriptions/" ++ subscriptionID).length + 1)⟩

/-- Go `strings.Split` for a one-character separator, at the character-list
level: the list of (possibly empty) chunks between occurrences of `sep`. -/
def splitOnChar (sep : Char) : List Char → List (List Char)
  | [] => [[]]
  | c :: rest =>
    let r := splitOnChar sep rest
    if c = sep then [] :: r
    else match r with
      | [] => [c] :: []
      | h :: t => (c :: h) :: t

/-- The leaf name of a resource path: `strings.Split(resource, "/")` and take
the last part (main.go lines 118–119). The split never returns an empty list,
so the default is never used. -/
def leafName (resource : String) : String :=
  ⟨(splitOnChar '/' resource.data).getLastD []⟩

/-- The per-pattern evaluation `matched, err := regexp.MatchString(rx, name)`
of `Collect` is abstracted as an oracle `String → String → Option Bool`:
`some b` for an error-free evaluation returning `b`, `none` for an evaluation
error. The Go guard `err == nil && matched` is `matcher rx name = some true`,
i.e. `(matcher rx name).getD false`. -/
def matchOk (matcher : String → String → Option Bool) (rx name : String) : Bool :=
  (matcher rx name).getD false

/-- The include/exclude decision of `Collect` (main.go lines 121–147) for one
resource leaf name: with a non-empty include list at least one include pattern
must match, and no exclude pattern may match. -/
def keepResource (matcher : String → String → Option Bool)
    (inc exc : List String) (name : String) : Bool :=
  (if !inc.isEmpty then inc.any fun rx => matchOk matcher rx name else true) &&
    !(exc.any fun rx => matchOk matcher rx name)

/-- Resource-group resolution as `Collect` composes it: the stripped
identifiers from `listFromResourceGroup`, filtered by leaf name through the
include/exclude patterns. -/
def resolveGroup (matcher : String → String → Option Bool)
    (inc exc : List String) (subscriptionID : String) (ids : List String) : List String :=
  (stripResources subscriptionID ids).filter fun r => keepResource matcher inc exc (leafName r)

/-- Go RE2 semantics of the two concrete patterns of the spec's filtering
example: an unanchored `MatchString` with pattern `^web-` succeeds exactly on
strings starting with `web-`, and with pattern `-staging$` exactly on strings
ending in `-staging`; neither can fail. -/
def exampleMatcher (rx name : String) : Option Bool :=
  if rx = "^web-" then some ("web-".data.isPrefixOf name.data)
  else if rx = "-staging$" then some ("-staging".data.isSuffixOf name.data)
  else none

/-- A match oracle for a malformed pattern: `regexp.MatchString("(", name)`
fails to compile on every call, so every evaluation of that pattern yields an
error (`none`). -/
def failingMatcher (rx : String) (_name : String) : Option Bool :=
  if rx = "(" then none else some false

/-! ### Configuration (`config/config.go`) -/

/-- The structure `config.Credentials`. -/
structure Credentials where
  subscriptionID : String
  clientID : String
  clientSecret : String
  tenantID : String
deriving DecidableEq

/-- The structure `config.Resource`: an explicit resource target. -/
structure ResourceSpec where
  name : String
  metrics : List String
  aggregations : List String
deriving DecidableEq

/-- The structure `config.ResourceGroup`. -/
structure ResourceGroupSpec where
  name : String
  resourceTypes : List String
  resourceInclude : List String
  resourceExclude : List String
  metrics : List String
  aggregations : List String
deriving DecidableEq

/-- The structure `config.Config`. -/
structure Config where
  credentials : Credentials
  resources : List ResourceSpec
  resourceGroups : List ResourceGroupSpec
deriving DecidableEq

/-- The list `validAggregations` (config.go line 53). -/
def validAggregations : List String := ["Total", "Average", "Minimum", "Maximum"]

/-- The method `Config.validateAggregations` (config.go lines 55–70): the first
aggregation not among the valid four produces the error. -/
def validateAggregations (aggregations : List String) : Option String :=
  aggregations.findSome? fun a =>
    if validAggregations.contains a then none
    else some (a ++ " is not one of the valid aggregations")

/-- The per-resource checks of `Config.Validate` (config.go lines 73–89), in
source order, first failure wins. -/
def validateResource (t : ResourceSpec) : Option String :=
  validateAggregations t.aggregations <|>
  (if t.name.length = 0 then some "name needs to be specified in each resource" else none) <|>
  (if !("/".data.isPrefixOf t.name.data) then some "Resource path must start with a /" else none) <|>
  (if t.metrics.length = 0 then some "At least one metric needs to be specified in each resource" else none)

/-- The per-resource-group checks of `Config.Validate` (config.go lines
91–113), in source order (including the duplicated `len(t.Name) == 0` check of
lines 96 and 100), first failure wins. The regex compiler is external, passed
as a `compiles` oracle. -/
def validateResourceGroup (compiles : String → Bool) (t : ResourceGroupSpec) : Option String :=
  validateAggregations t.aggregations <|>
  (if t.name.length = 0 then some "name needs to be specified in each resource group" else none) <|>
  (if t.name.length = 0 then some "At lease one resource type needs to be specified in each resource group" else none) <|>
  (if t.metrics.length = 0 then some "At least one metric needs to be specified in each resource group" else none) <|>
  ((t.resourceInclude ++ t.resourceExclude).findSome? fun rx =>
    if compiles rx then none else some ("Error in regexp " ++ rx))

/-- The method `Config.Validate` (config.go lines 72–116): resources first, then resource
groups, first failure wins. -/
def validateConfig (compiles : String → Bool) (c : Config) : Option String :=
  (c.resources.findSome? validateResource) <|>
  (c.resourceGroups.findSome? (validateResourceGroup compiles))

/-- The method `SafeConfig.ReloadConfig` (config.go lines 30–51). The input models what
the external file system and YAML parser hand over: `none` when
`ioutil.ReadFile` fails, `some none` when `yaml.Unmarshal` fails,
`some (some c)` when the file parses to configuration `c`. The result is the
stored configuration after the call (the previous one on every failure, the
freshly parsed one only after validation succeeds) and `some errorMessage` on
failure. -/
def reloadConfig (compiles : String → Bool) (stored : Config) (input : Option (Option Config)) :
    Config × Option String :=
  match input with
  | none => (stored, some "Error reading config file")
  | some none => (stored, some "Error parsing config file")
  | some (some c) =>
    match validateConfig compiles c with
    | some e => (stored, some ("Error validating config file: " ++ e))
    | none => (c, none)

/-! ## Helper lemmas -/

/-- Appending on the left cancels. -/
theorem append_left_cancel {a b c : String} (h : a ++ b = a ++ c) : b = c := by
  cases a; cases b; cases c
  simp [String.ext_iff] at h ⊢
  exact h

/-- Boolean equality of strings with a common appended left part. -/
theorem append_beq_right (a b c : String) : (a ++ b == a ++ c) = (b == c) := by
  rw [Bool.eq_iff_iff]
  simp only [beq_iff_eq]
  exact ⟨fun hh => append_left_cancel hh, fun hh => by rw [hh]⟩

/-- Per-character lowercasing distributes over append. -/
theorem strToLower_append (a b : String) :
    strToLower (a ++ b) = strToLower a ++ strToLower b := by
  cases a; cases b
  simp [strToLower, String.ext_iff]

/-- The Go guard `err == nil && matched` holds exactly for an error-free true
evaluation. -/
theorem matchOk_iff (matcher : String → String → Option Bool) (rx name : String) :
    matchOk matcher rx name = true ↔ matcher rx name = some true := by
  unfold matchOk
  cases hm : matcher rx name with
  | none => simp
  | some b => cases b <;> simp

/-- Negative form of `matchOk_iff`. -/
theorem matchOk_false_iff (matcher : String → String → Option Bool) (rx name : String) :
    matchOk matcher rx name = false ↔ matcher rx name ≠ some true := by
  rw [← Bool.not_eq_true, not_iff_not, matchOk_iff]

/-- Characterization of the include/exclude decision of `Collect`. -/
theorem keepResource_eq_true_iff (matcher : String → String → Option Bool)
    (inc exc : List String) (name : String) :
    keepResource matcher inc exc name = true ↔
      ((inc = [] ∨ ∃ rx ∈ inc, matcher rx name = some true) ∧
        ∀ rx ∈ exc, matcher rx name ≠ some true) := by
  unfold keepResource
  rcases eq_or_ne inc [] with h | h
  · subst h
    simp [List.any_eq_true, List.any_eq_false, matchOk_false_iff]
  · have hne : inc.isEmpty = false := by simp [List.isEmpty_iff, h]
    simp [hne, h, List.any_eq_true, List.any_eq_false, matchOk_iff, matchOk_false_iff]

/-- An evaluation error behaves exactly like a clean non-match in `matchOk`. -/
theorem matchOk_totalize (matcher : String → String → Option Bool) (rx name : String) :
    matchOk (fun rx2 s => some ((matcher rx2 s).getD false)) rx name
      = matchOk matcher rx name := by
  unfold matchOk
  cases hm : matcher rx name <;> simp [hm]

/-- Membership in a conditional singleton list. -/
theorem mem_ite_singleton {α : Type} {c : Prop} [Decidable c] {x s : α}
    (h : s ∈ (if c then [x] else ([] : List α))) : s = x := by
  by_cases hc : c
  · rw [if_pos hc] at h
    simpa using h
  · rw [if_neg hc] at h
    simp at h

/-- The emission guard agrees with membership in the outbound request's
aggregation list for each of the four kinds. -/
theorem hasAggregation_eq_contains_requested (aggregations : List String) (k : AggKind) :
    hasAggregation aggregations k.apiName
      = (requestedAggregations aggregations).contains k.apiName := by
  unfold hasAggregation requestedAggregations
  by_cases h : aggregations.isEmpty
  · simp only [h, Bool.true_or, if_true]
    cases k <;> rfl
  · simp only [Bool.not_eq_true] at h
    simp [h]

/-- The four emission blocks produce exactly one sample named with kind `k`'s
suffix when `k` passes the guard, none otherwise. -/
theorem countP_samplesFromPoint (aggregations : List String) (base lbl : String)
    (dp : MetricDataPoint) (k : AggKind) :
    (samplesFromPoint aggregations base lbl dp).countP
        (fun s => s.name == base ++ k.suffix)
      = if hasAggregation aggregations k.apiName then 1 else 0 := by
  cases k <;>
    by_cases h1 : hasAggregation aggregations "Total" <;>
    by_cases h2 : hasAggregation aggregations "Average" <;>
    by_cases h3 : hasAggregation aggregations "Minimum" <;>
    by_cases h4 : hasAggregation aggregations "Maximum" <;>
    simp +decide [samplesFromPoint, h1, h2, h3, h4, AggKind.apiName, AggKind.suffix,
      List.countP_append, List.countP_cons, append_beq_right]

/-- Every sample the four emission blocks produce is named with one of the
four kind suffixes. -/
theorem all_samplesFromPoint (aggregations : List String) (base lbl : String)
    (dp : MetricDataPoint) :
    ((samplesFromPoint aggregations base lbl dp).all fun s =>
      allAggKinds.any fun k2 => s.name == base ++ k2.suffix) = true := by
  by_cases h1 : hasAggregation aggregations "Total" <;>
    by_cases h2 : hasAggregation aggregations "Average" <;>
    by_cases h3 : hasAggregation aggregations "Minimum" <;>
    by_cases h4 : hasAggregation aggregations "Maximum" <;>
    simp +decide [samplesFromPoint, allAggKinds, h1, h2, h3, h4, AggKind.suffix,
      append_beq_right]

/-- Dropping the subscription prefix length from a prefixed identifier yields
the resource-relative path. -/
theorem strip_roundtrip (sub r : String) :
    (⟨("/subscriptions/" ++ sub ++ r).data.drop
        (("subscriptions/" ++ sub).length + 1)⟩ : String) = r := by
  apply String.ext
  show ("/subscriptions/" ++ sub ++ r).data.drop
      (("subscriptions/" ++ sub).length + 1) = r.data
  rw [String.data_append]
  have hlen : ("subscriptions/" ++ sub).length + 1
      = ("/subscriptions/" ++ sub).data.length := by
    show _ = ("/subscriptions/" ++ sub).length
    rw [String.length_append, String.length_append]
    have h1 : ("subscriptions/" : String).length = 14 := rfl
    have h2 : ("/subscriptions/" : String).length = 15 := rfl
    omega
  rw [hlen, List.drop_left]

/-! ## Claims -/

/-- C2: for every raw metric name and unit, the derived metric name equals the
result of replacing spaces by underscores, lowercasing the concatenation with
`_` plus the unit, replacing `/` by `_per_`, then replacing every character
outside `[a-zA-Z0-9_:]` by `_` (the spec's phrasing `mapNameSpec`, which
lowercases the unit before appending, agrees); the mapping is a function,
hence deterministic, and `mapMetricName "CPU Percentage" "Percent"` is
`cpu_percentage_percent`. -/
theorem mapMetricName_matches_spec :
    (∀ rawName unit, mapMetricName rawName unit = mapNameSpec rawName unit) ∧
    mapMetricName "CPU Percentage" "Percent" = "cpu_percentage_percent" := by
  constructor
  · intro r u
    unfold mapMetricName mapNameSpec
    rw [strToLower_append, strToLower_append]
    rfl
  · decide

/-- C4, counterexample: at `now` exactly equal to the token expiry minus 10
minutes (here `now = 600`, expiry `1200` seconds), the claimed refresh
condition `now ≥ expiry - 10min` holds (and a token exists), yet neither
`getMetricValue` nor `listFromResourceGroup` performs a refresh: the code uses
the strict `now.After(expiry - 10min)`. -/
theorem tokenRefresh_boundary_cex :
    (600 : Int) ≥ 1200 - 10 * 60 ∧
    getMetricValueRefreshes 600 ⟨"tok", 1200⟩ = false ∧
    listFromResourceGroupRefreshes 600 ⟨"tok", 1200⟩ = false := by
  decide

/-- C4, amended: before an outbound metrics or listing query a refresh is
performed if and only if `now` is STRICTLY after the token expiry minus 10
minutes (both query paths use the same test); the no-token initial state has
the zero expiry instant, so any nonnegative `now` triggers a refresh; with
expiry `now + 5min` a refresh is triggered and with expiry `now + 15min` it is
not. -/
theorem tokenRefresh_strict (now : Int) (st : AzureClientState) :
    (getMetricValueRefreshes now st = true ↔ now > st.accessTokenExpiresOn - 10 * 60) ∧
    listFromResourceGroupRefreshes now st = getMetricValueRefreshes now st ∧
    (0 ≤ now → getMetricValueRefreshes now ⟨"", 0⟩ = true) ∧
    getMetricValueRefreshes now ⟨st.accessToken, now + 5 * 60⟩ = true ∧
    getMetricValueRefreshes now ⟨st.accessToken, now + 15 * 60⟩ = false := by
  refine ⟨?_, rfl, ?_, ?_, ?_⟩
  · simp [getMetricValueRefreshes]
  · intro h
    simp only [getMetricValueRefreshes, decide_eq_true_eq]
    omega
  · simp only [getMetricValueRefreshes, decide_eq_true_eq]
    omega
  · simp only [getMetricValueRefreshes, decide_eq_false_iff_not, decide_eq_true_eq]
    omega

/-- C4 witness: with `now = 0` seconds and the zero no-token state, a refresh
is triggered. -/
theorem tokenRefresh_strict_witness : getMetricValueRefreshes 0 ⟨"", 0⟩ = true :=
  (tokenRefresh_strict 0 ⟨"", 0⟩).2.2.1 (by decide)

/-- C5: a resolved resource is kept if and only if the include list is empty
or some include pattern matches its leaf name, and no exclude pattern matches
its leaf name; with include `^web-` and exclude `-staging$`, leaf name
`web-staging` is dropped (exclude wins), `web-prod` is kept and `db-prod` is
dropped. -/
theorem resourceFiltering (matcher : String → String → Option Bool)
    (inc exc : List String) (name : String) :
    (keepResource matcher inc exc name = true ↔
      ((inc = [] ∨ ∃ rx ∈ inc, matcher rx name = some true) ∧
        ∀ rx ∈ exc, matcher rx name ≠ some true)) ∧
    keepResource exampleMatcher ["^web-"] ["-staging$"] "web-staging" = false ∧
    keepResource exampleMatcher ["^web-"] ["-staging$"] "web-prod" = true ∧
    keepResource exampleMatcher ["^web-"] ["-staging$"] "db-prod" = false := by
  exact ⟨keepResource_eq_true_iff matcher inc exc name, by decide, by decide, by decide⟩

/-- C5 witness: the filtering decision applied to the leaf name `web-prod`
with the example patterns. -/
theorem resourceFiltering_witness :
    keepResource exampleMatcher ["^web-"] ["-staging$"] "web-prod" = true :=
  (resourceFiltering exampleMatcher ["^web-"] ["-staging$"] "web-prod").2.2.1

/-- C6, counterexample: with the single include pattern `(` (whose evaluation
always errors) and no exclude patterns, the resource `web-prod` is NOT
retained — the erroring include evaluation counts as a non-match, so the
include stage drops the resource, against the claim's "the resource is
retained". -/
theorem regexErrorInclude_cex :
    resolveGroup failingMatcher ["("] [] "sub"
      ["/subscriptions/sub/resourceGroups/rg/providers/p/t/web-prod"] = [] := by
  decide

/-- C6, amended: a regex evaluation error at scrape time is treated exactly as
a non-match and is never propagated (the decision for any oracle equals the
decision for the totalized oracle that reports a clean non-match wherever the
original errored); consequently a resource whose exclude evaluations error (or
cleanly fail) is retained provided the include stage passes, while an erroring
include pattern does not count toward inclusion, so the resource is dropped
unless another include pattern matches. -/
theorem regexErrorNonmatch (matcher : String → String → Option Bool)
    (inc exc : List String) (name : String) :
    keepResource matcher inc exc name
      = keepResource (fun rx s => some ((matcher rx s).getD false)) inc exc name ∧
    ((∀ rx ∈ exc, matcher rx name ≠ some true) →
      (inc = [] ∨ ∃ rx ∈ inc, matcher rx name = some true) →
      keepResource matcher inc exc name = true) := by
  constructor
  · unfold keepResource
    simp only [matchOk_totalize]
  · intro hexc hinc
    rw [keepResource_eq_true_iff]
    exact ⟨hinc, hexc⟩

/-- C6 witness: a resource whose only exclude pattern always errors is
retained. -/
theorem regexErrorNonmatch_witness :
    keepResource failingMatcher [] ["("] "web-prod" = true :=
  (regexErrorNonmatch failingMatcher [] ["("] "web-prod").2 (by decide) (Or.inl rfl)

/-- C8: resolving a resource group with empty include and exclude lists over a
listing response of identifiers `/subscriptions/<sub><rest>` yields exactly one
resolved resource per identifier, namely the identifier with the
subscription-path prefix stripped. -/
theorem resolveGroup_strips_subscription (matcher : String → String → Option Bool)
    (sub : String) (rests : List String) :
    resolveGroup matcher [] [] sub
      (rests.map fun r => "/subscriptions/" ++ sub ++ r) = rests := by
  unfold resolveGroup
  have hkeep : ∀ a ∈ stripResources sub (rests.map fun r => "/subscriptions/" ++ sub ++ r),
      keepResource matcher [] [] (leafName a) = true := fun a _ => rfl
  rw [List.filter_eq_self.mpr hkeep]
  unfold stripResources
  rw [List.map_map]
  have hpt : ∀ r ∈ rests,
      ((fun id : String =>
          (⟨id.data.drop (("subscriptions/" ++ sub).length + 1)⟩ : String)) ∘
        fun r => "/subscriptions/" ++ sub ++ r) r = r :=
    fun r _ => strip_roundtrip sub r
  rw [List.map_congr_left hpt, List.map_id']

/-- C10: `ReloadConfig` is atomic on failure — whenever it reports an error
(unreadable file, unparsable file, or failed validation) the stored
configuration is unchanged, and when it succeeds the stored configuration is
exactly the parsed input configuration, which passed validation. -/
theorem reloadConfig_atomic (compiles : String → Bool) (stored : Config)
    (input : Option (Option Config)) :
    ((reloadConfig compiles stored input).2 ≠ none →
      (reloadConfig compiles stored input).1 = stored) ∧
    ((reloadConfig compiles stored input).2 = none →
      input = some (some (reloadConfig compiles stored input).1) ∧
      validateConfig compiles (reloadConfig compiles stored input).1 = none) := by
  rcases input with _ | _ | c
  · simp [reloadConfig]
  · simp [reloadConfig]
  · rcases hv : validateConfig compiles c with _ | e
    · simp [reloadConfig, hv]
    · simp [reloadConfig, hv]

/-- C10 witness: a failed file read leaves a concrete stored configuration in
place. -/
theorem reloadConfig_atomic_witness :
    (reloadConfig (fun _ => true) ⟨⟨"s", "c", "x", "t"⟩, [], []⟩ none).1
      = ⟨⟨"s", "c", "x", "t"⟩, [], []⟩ :=
  (reloadConfig_atomic (fun _ => true) ⟨⟨"s", "c", "x", "t"⟩, [], []⟩ none).1 (by decide)

/-- C1: for a requested aggregation list drawn from
{Total, Average, Minimum, Maximum}, every metric value entry that reaches the
emission loop yields exactly one gauge sample per aggregation kind present in
the outbound request (the configured list, or all four when none is
configured; the decoded response always carries all four aggregate fields),
zero samples per kind absent from the request, and every emitted name carries
exactly one of the suffixes `_total`, `_average`, `_min`, `_max`. -/
theorem collectResource_samples_per_aggregation (aggregations : List String)
    (hsub : ∀ a ∈ aggregations, a ∈ validAggregations)
    (v : MetricValueEntry) (l : List MetricSample)
    (hl : samplesForEntry aggregations v = some l) (k : AggKind) :
    l.countP (fun s => s.name == mapMetricName v.nameValue v.unit ++ k.suffix)
      = (if (requestedAggregations aggregations).contains k.apiName then 1 else 0) ∧
    (l.all fun s => allAggKinds.any fun k2 =>
      s.name == mapMetricName v.nameValue v.unit ++ k2.suffix) = true := by
  unfold samplesForEntry at hl
  rcases hts : v.timeseries.head? with _ | ts0 <;> rw [hts] at hl <;> dsimp only at hl
  · cases hl
  · rcases hdp : ts0.data.getLast? with _ | dp <;> rw [hdp] at hl <;> dsimp only at hl
    · cases hl
    · injection hl with hl
      subst hl
      exact ⟨by rw [countP_samplesFromPoint, hasAggregation_eq_contains_requested],
        all_samplesFromPoint aggregations (mapMetricName v.nameValue v.unit) v.id dp⟩

/-- C1 witness: a single-entry response for `CPU Percentage` / `Percent` with
`Total` requested yields exactly one `_total` sample. -/
theorem collectResource_samples_per_aggregation_witness :
    (([⟨"cpu_percentage_percent_total", "rid", 7⟩] : List MetricSample).countP
        (fun s => s.name == mapMetricName "CPU Percentage" "Percent" ++ AggKind.total.suffix)
      = (if (requestedAggregations ["Total"]).contains AggKind.total.apiName then 1 else 0)) ∧
    (([⟨"cpu_percentage_percent_total", "rid", 7⟩] : List MetricSample).all fun s =>
      allAggKinds.any fun k2 =>
        s.name == mapMetricName "CPU Percentage" "Percent" ++ k2.suffix) = true :=
  collectResource_samples_per_aggregation ["Total"] (by decide)
    ⟨[⟨[⟨"t", 7, 8, 9, 10⟩]⟩], "rid", "CPU Percentage", "Percent"⟩
    [⟨"cpu_percentage_percent_total", "rid", 7⟩] (by decide) AggKind.total

/-- C3 (evaluation of the code at the failing input): a response with a nil
`value` list yields zero samples with no error, and so does a response whose
first entry's first time series has no data points — but a response carrying a
present-but-empty `value` list (decoded from `"value": []`) makes
`collectResource` panic (index out of range at `Value[0]`, modelled `none`)
instead of yielding zero samples. -/
theorem collectResource_empty_value_cases :
    collectResource [] ⟨none⟩ = some [] ∧
    collectResource [] ⟨some [⟨[⟨[]⟩], "rid", "N", "U"⟩]⟩ = some [] ∧
    collectResource [] ⟨some []⟩ = none := by
  exact ⟨rfl, rfl, rfl⟩

/-- C7: every sample emitted for a metric value entry carries, for its
aggregation kind, the corresponding field of the LAST element of the entry's
first time series' data sequence — the most recent point, not an average or
an earlier point. -/
theorem collectResource_uses_last_point (aggregations : List String)
    (v : MetricValueEntry) (ts0 : MetricTimeseries) (rest : List MetricTimeseries)
    (hts : v.timeseries = ts0 :: rest) (dp : MetricDataPoint)
    (hdp : ts0.data.getLast? = some dp) (l : List MetricSample)
    (hl : samplesForEntry aggregations v = some l) (s : MetricSample) (hs : s ∈ l) :
    (s.name = mapMetricName v.nameValue v.unit ++ "_total" ∧ s.value = dp.total) ∨
    (s.name = mapMetricName v.nameValue v.unit ++ "_average" ∧ s.value = dp.average) ∨
    (s.name = mapMetricName v.nameValue v.unit ++ "_min" ∧ s.value = dp.minimum) ∨
    (s.name = mapMetricName v.nameValue v.unit ++ "_max" ∧ s.value = dp.maximum) := by
  unfold samplesForEntry at hl
  rw [hts] at hl
  simp only [List.head?_cons] at hl
  rw [hdp] at hl
  injection hl with hl
  subst hl
  unfold samplesFromPoint at hs
  simp only [List.mem_append] at hs
  rcases hs with ((h | h) | h) | h
  · obtain rfl := mem_ite_singleton h
    exact Or.inl ⟨rfl, rfl⟩
  · obtain rfl := mem_ite_singleton h
    exact Or.inr (Or.inl ⟨rfl, rfl⟩)
  · obtain rfl := mem_ite_singleton h
    exact Or.inr (Or.inr (Or.inl ⟨rfl, rfl⟩))
  · obtain rfl := mem_ite_singleton h
    exact Or.inr (Or.inr (Or.inr ⟨rfl, rfl⟩))

/-- C7 witness: with a two-point series, the emitted `_total` sample carries
the second (last) point's total. -/
theorem collectResource_uses_last_point_witness :
    ("n_u_total" = mapMetricName "N" "U" ++ "_total" ∧ (21 : Int) = 21) ∨
    ("n_u_total" = mapMetricName "N" "U" ++ "_average" ∧ (21 : Int) = 22) ∨
    ("n_u_total" = mapMetricName "N" "U" ++ "_min" ∧ (21 : Int) = 23) ∨
    ("n_u_total" = mapMetricName "N" "U" ++ "_max" ∧ (21 : Int) = 24) :=
  collectResource_uses_last_point ["Total"]
    ⟨[⟨[⟨"t1", 1, 2, 3, 4⟩, ⟨"t2", 21, 22, 23, 24⟩]⟩], "rid", "N", "U"⟩
    ⟨[⟨"t1", 1, 2, 3, 4⟩, ⟨"t2", 21, 22, 23, 24⟩]⟩ [] rfl
    ⟨"t2", 21, 22, 23, 24⟩ (by decide)
    [⟨"n_u_total", "rid", 21⟩] (by decide)
    ⟨"n_u_total", "rid", 21⟩ (by decide)

/-- C9: an identity-endpoint response with a non-200 status returns an error
carrying the status code (no crash); a 200 response with an unparsable body
returns an unmarshalling error (no crash); a successful response replaces the
stored token wholesale — both the bearer string and the expiry come from the
response, independent of the previous state. -/
theorem getAccessToken_contract (st : AzureClientState) (resp : IdentityResponse) :
    (resp.statusCode ≠ 200 →
      getAccessToken st resp
        = some (st, some ("Did not get status code 200, got: " ++ toString resp.statusCode))) ∧
    (resp.statusCode = 200 → resp.body = none →
      getAccessToken st resp = some (st, some "Error unmarshalling response body")) ∧
    (∀ tok e n, resp.statusCode = 200 → resp.body = some ⟨some tok, some e⟩ →
      e.toInt? = some n → getAccessToken st resp = some (⟨tok, n⟩, none)) := by
  refine ⟨?_, ?_, ?_⟩
  · intro h
    simp [getAccessToken, h]
  · intro h1 h2
    simp [getAccessToken, h1, h2]
  · intro tok e n h1 h2 h3
    simp [getAccessToken, h1, h2, h3]

/-- C9 witness: a 500 response leaves the state unchanged and reports the
status code in the error. -/
theorem getAccessToken_contract_witness :
    getAccessToken ⟨"old", 5⟩ ⟨500, none⟩
      = some (⟨"old", 5⟩, some ("Did not get status code 200, got: " ++ toString (500 : Nat))) :=
  (getAccessToken_contract ⟨"old", 5⟩ ⟨500, none⟩).1 (by decide)

end AzureExporter
